import Mathlib

/-!
A shallow embedding of the LilyPond-to-PDF Streamlit application
(`app.py`).  The application is a single script rerun on every user
interaction; we model one rerun as a pure transition function on the
session state, parameterised by an environment that models the host
(executable discovery probes, filesystem) and the external tools
(the engraving tool as a function of the source text, the synthesizer
as a function of the performance-data bytes), together with explicit
injection points for I/O exceptions caught by the script's top-level
handler.
-/

namespace LilyApp

/-- File contents, as raw bytes. -/
abbrev Bytes := List Nat

/-- Result of running the engraving tool (`lilypond`) on a source text:
exit status, captured standard error, and the contents of `score.pdf`
and `score.midi` in the scratch directory when those files exist. -/
structure LilyOut where
  returncode : Int
  stderr : String
  pdf : Option Bytes
  midi : Option Bytes
deriving Repr

/-- Result of running the synthesizer (`fluidsynth`): exit status and,
when it created the output `.wav` file, that file's contents. -/
structure SynthOut where
  returncode : Int
  wavFile : Option Bytes
deriving Repr

/-- The host as seen by the discovery functions `find_lilypond`,
`find_fluidsynth` and `find_soundfont`: `os.name`, `platform.system()`,
the outcome of the `--version` probes (`none` models a raised
`FileNotFoundError`, `some rc` an exit status), the `PROGRAMFILES`
environment variables, the home directory for `os.path.expanduser`,
and the filesystem probes `os.path.isfile` / `os.access(·, X_OK)`. -/
structure Host where
  os_name : String
  platform_system : String
  probe_lilypond : Option Int
  probe_fluidsynth : Option Int
  program_files : Option String
  program_files_x86 : Option String
  home : String
  isFile : String → Bool
  isExecutable : String → Bool

/-- The candidate list built by `find_lilypond` (app.py lines 37-62). -/
def lilypond_common_paths (h : Host) : List String :=
  if h.os_name = "nt" then
    let program_files := h.program_files.getD "C:\\Program Files"
    let program_files_x86 := h.program_files_x86.getD "C:\\Program Files (x86)"
    [program_files ++ "\\LilyPond\\usr\\bin\\lilypond.exe",
     program_files ++ "\\LilyPond\\bin\\lilypond.exe",
     program_files_x86 ++ "\\LilyPond\\usr\\bin\\lilypond.exe",
     program_files_x86 ++ "\\LilyPond\\bin\\lilypond.exe"]
  else if h.platform_system = "darwin" then
    ["/Applications/LilyPond.app/Contents/Resources/bin/lilypond",
     h.home ++ "/Applications/LilyPond.app/Contents/Resources/bin/lilypond"]
  else
    ["/usr/bin/lilypond", "/usr/local/bin/lilypond"]

/-- `find_lilypond` (app.py lines 25-69): return the bare name if the
`lilypond --version` probe exits 0; otherwise the first candidate path
that is a file and executable; otherwise `none`. -/
def find_lilypond (h : Host) : Option String :=
  match h.probe_lilypond with
  | some 0 => some "lilypond"
  | _ => (lilypond_common_paths h).find? (fun p => h.isFile p && h.isExecutable p)

/-- The candidate list built by `find_fluidsynth` (app.py lines 251-275). -/
def fluidsynth_common_paths (h : Host) : List String :=
  if h.os_name = "nt" then
    let program_files := h.program_files.getD "C:\\Program Files"
    let program_files_x86 := h.program_files_x86.getD "C:\\Program Files (x86)"
    [program_files ++ "\\FluidSynth\\bin\\fluidsynth.exe",
     program_files_x86 ++ "\\FluidSynth\\bin\\fluidsynth.exe"]
  else if h.platform_system = "darwin" then
    ["/usr/local/bin/fluidsynth", "/opt/homebrew/bin/fluidsynth"]
  else
    ["/usr/bin/fluidsynth", "/usr/local/bin/fluidsynth"]

/-- `find_fluidsynth` (app.py lines 239-282), same three-tier strategy
as `find_lilypond`. -/
def find_fluidsynth (h : Host) : Option String :=
  match h.probe_fluidsynth with
  | some 0 => some "fluidsynth"
  | _ => (fluidsynth_common_paths h).find? (fun p => h.isFile p && h.isExecutable p)

/-- The candidate list built by `find_soundfont` (app.py lines 289-314). -/
def soundfont_common_paths (h : Host) : List String :=
  if h.os_name = "nt" then
    let program_files := h.program_files.getD "C:\\Program Files"
    let program_files_x86 := h.program_files_x86.getD "C:\\Program Files (x86)"
    [program_files ++ "\\FluidSynth\\share\\soundfonts\\default.sf2",
     program_files_x86 ++ "\\FluidSynth\\share\\soundfonts\\default.sf2"]
  else if h.platform_system = "darwin" then
    ["/usr/local/share/soundfonts/default.sf2",
     "/opt/homebrew/share/soundfonts/default.sf2"]
  else
    ["/usr/share/sounds/sf2/FluidR3_GM.sf2",
     "/usr/share/soundfonts/default.sf2",
     "/usr/share/soundfonts/FluidR3_GM.sf2"]

/-- `find_soundfont` (app.py lines 286-321): first candidate that is a
file (no executability check); there is no shell-path probe here. -/
def find_soundfont (h : Host) : Option String :=
  (soundfont_common_paths h).find? (fun p => h.isFile p)

/-- The environment of one conversion: the host, the engraving tool as a
fixed function of the source-file contents, the synthesizer as a fixed
function of the performance-data bytes (`none` models an exception
raised during its invocation, caught inside `midi_to_wav`), and
injection points for I/O exceptions at the script's file operations,
all caught by the top-level `except` handler (app.py line 455):
writing `score.ly`, copying/reading the cached PDF, copying/reading
the cached MIDI, and reading the produced WAV file. -/
structure Env where
  host : Host
  lily : String → LilyOut
  synth : Bytes → Option SynthOut
  exnWriteLy : Bool
  exnPdfCache : Bool
  exnMidiCache : Bool
  exnWavRead : Bool

/-- An invocation of an external pipeline process recorded during one
script run. -/
inductive ProcCall where
  | lilypond (content : String)
  | fluidsynth (midi : Bytes)
deriving DecidableEq, Repr

/-- `midi_to_wav` (app.py lines 324-362), paired with the recorded
process invocations.  The outer `Option` is the function's own return
value (`none` = it returned `None`); the inner `Option Bytes` models
whether the returned `wav_path` actually exists on disk, with its
contents (the caller checks `os.path.exists`, app.py line 436).
Exceptions during the synthesizer invocation are caught inside this
function and also yield `none`. -/
def midi_to_wav (env : Env) (midiBytes : Bytes) : Option (Option Bytes) × List ProcCall :=
  if (find_fluidsynth env.host).isNone then (none, [])
  else if (find_soundfont env.host).isNone then (none, [])
  else
    match env.synth midiBytes with
    | none => (none, [ProcCall.fluidsynth midiBytes])
    | some r =>
      if r.returncode ≠ 0 then (none, [ProcCall.fluidsynth midiBytes])
      else (some r.wavFile, [ProcCall.fluidsynth midiBytes])

/-- The `st.session_state` fields used by the script (app.py lines
173-184, 196, 218-223).  `ly_text` and `last_uploaded_file` are `none`
while the corresponding key is not yet in the session state. -/
structure SessionState where
  pdf_generated : Bool
  pdf_data : Option Bytes
  pdf_filename : Option String
  midi_data : Option Bytes
  midi_filename : Option String
  wav_data : Option Bytes
  ly_text : Option String
  last_uploaded_file : Option String
deriving DecidableEq, Repr

/-- The session state right after the initialisation block
(app.py lines 173-184) on a fresh session. -/
def initState : SessionState :=
  { pdf_generated := false
    pdf_data := none
    pdf_filename := none
    midi_data := none
    midi_filename := none
    wav_data := none
    ly_text := none
    last_uploaded_file := none }

/-- A file supplied through the upload widget: its name and its decoded
text content. -/
structure UploadedFile where
  name : String
  content : String
deriving DecidableEq, Repr

/-- The widget values of one script rerun: the two buttons of tab 1,
the text area content as displayed after this rerun, both output-name
fields, the upload widget, and the two convert buttons. -/
structure ScriptInput where
  load_sample : Bool
  text_area : String
  output_filename : String
  uploaded_file : Option UploadedFile
  output_filename_file : String
  convert_text : Bool
  convert_file : Bool

/-- The branch the processing block ends in: not run at all (no button
pressed or LilyPond absent), stopped for a missing upload, stopped on
a non-zero LilyPond exit (carrying the captured stderr shown in the
`LilyPond Error:` message), stopped because no `score.pdf` exists,
aborted by an exception caught at the top level, or completed. -/
inductive ConvOutcome where
  | notRun
  | inputMissing
  | lilypondError (stderr : String)
  | noPdfProduced
  | exceptionCaught
  | success
deriving DecidableEq, Repr

/-- The check at app.py line 201: `'ly_text' in st.session_state and
st.session_state.ly_text != text_area`. -/
def textDiffers : Option String → String → Bool
  | some t, ta => t != ta
  | none, _ => false

/-- The built-in sample (app.py lines 81-167). -/
def piano_sheet : String :=
  "\\version \"2.20.0\"\n\n\\header \x7b\n  title = \"Ascension\"\n  subtitle = \"An Epic Piano Journey\"\n  composer = \"Composed for You\"\n\x7d\n\n\\paper \x7b\n  #(set-paper-size \"letter\")\n\x7d\n\nglobal = \x7b\n  \\key d \\major\n  \\time 4/4\n  \\tempo \"With passion\" 4 = 72\n\x7d\n\nupper = \\relative c\x27\x27 \x7b\n  \\global\n  \\clef treble\n  \n  % Introduction - Majestic and contemplative\n  \\partial 4 a4\\mp |\n  <d fis a>2. <cis e a>4 |\n  <b d g>2. <a d fis>4 |\n  <g b e>2 <fis a d>2 |\n  <e a cis>2. a,4\\< |\n  \n  <d fis a>2.\\mf <e g b>4 |\n  <fis a d>2. <g b e>4 |\n  <a cis e>2 <b d fis>2 |\n  <a cis e>2. r4\\! |\n  \n  % Main theme - Hopeful and building\n  d,4\\mp\\< fis a d |\n  cis4. b8 a4 fis |\n  b4. a8 g4 d |\n  e4. fis8 g4\\mf a\\> |\n  \n  d,4\\mp fis a d |\n  e4. d8 cis4 a |\n  b4. a8 g4 e |\n  fis2\\> d2\\mp\\! |\n  \n  % First few measures of the piece for brevity\n  \\bar \"|.\"\n\x7d\n\nlower = \\relative c \x7b\n  \\global\n  \\clef bass\n  \n  % Introduction\n  \\partial 4 r4 |\n  d4 a\x27 d, a\x27 |\n  g,4 d\x27 g, d\x27 |\n  e,4 b\x27 e, b\x27 |\n  a,4 e\x27 a, e\x27 |\n  \n  d4 a\x27 d, a\x27 |\n  d,4 a\x27 d, a\x27 |\n  a,4 e\x27 a, e\x27 |\n  a,4 e\x27 a, e\x27 |\n  \n  % Main theme\n  d4 a\x27 fis a |\n  a,4 e\x27 a, e\x27 |\n  g,4 d\x27 g, d\x27 |\n  a4 e\x27 a, e\x27 |\n  \n  d4 a\x27 fis a |\n  a,4 e\x27 a, e\x27 |\n  g,4 d\x27 g, d\x27 |\n  a4 d fis a |\n  \n  \\bar \"|.\"\n\x7d\n\n\\score \x7b\n  \\new PianoStaff <<\n    \\new Staff = \"upper\" \\upper\n    \\new Staff = \"lower\" \\lower\n  >>\n  \\layout \x7b \x7d\n  \\midi \x7b \x7d\n\x7d"

/-- Tab 1 (app.py lines 191-204): the Load Sample button clears the
validity flag and replaces the text-area content with the sample; a
text-area content that differs from the recorded `ly_text` clears the
validity flag; finally `ly_text` is set to the text-area content.
Returns the updated state and the text-area content.  (When Load
Sample is pressed the flag is already cleared, so the line-201 check
is a no-op in that branch and the two sequential writes collapse into
the single update below.) -/
def tab1Step (inp : ScriptInput) (s : SessionState) : SessionState × String :=
  if inp.load_sample then
    ({ s with pdf_generated := false, ly_text := some piano_sheet }, piano_sheet)
  else if textDiffers s.ly_text inp.text_area then
    ({ s with pdf_generated := false, ly_text := some inp.text_area }, inp.text_area)
  else
    ({ s with ly_text := some inp.text_area }, inp.text_area)

/-- Tab 2 (app.py lines 218-223): when a file is uploaded and a
previous upload name is recorded and differs, clear the validity flag
and record the new name; when a file is uploaded with no previous
record, just record the name. -/
def tab2Step (inp : ScriptInput) (s : SessionState) : SessionState :=
  match inp.uploaded_file with
  | none => s
  | some f =>
    match s.last_uploaded_file with
    | some prev =>
      if prev ≠ f.name then
        { s with pdf_generated := false, last_uploaded_file := some f.name }
      else s
    | none => { s with last_uploaded_file := some f.name }

/-- The processing block (app.py lines 370-456) for a chosen content
and output name: write `score.ly`, run LilyPond, stop on non-zero exit
or missing `score.pdf`, cache and store the PDF, then the MIDI when
present (resetting the MIDI/WAV fields when absent), attempt the WAV
conversion, and finally set `pdf_generated`.  Injected I/O exceptions
abort at the corresponding point, reaching the top-level handler with
the session-state writes made so far kept. -/
def runConversion (env : Env) (content output_name : String) (s : SessionState) :
    SessionState × ConvOutcome × List ProcCall :=
  if env.exnWriteLy then (s, ConvOutcome.exceptionCaught, [])
  else if (env.lily content).returncode ≠ 0 then
    (s, ConvOutcome.lilypondError (env.lily content).stderr, [ProcCall.lilypond content])
  else
    match (env.lily content).pdf with
    | none => (s, ConvOutcome.noPdfProduced, [ProcCall.lilypond content])
    | some pdfBytes =>
      if env.exnPdfCache then (s, ConvOutcome.exceptionCaught, [ProcCall.lilypond content])
      else
        match (env.lily content).midi with
        | none =>
          ({ s with pdf_data := some pdfBytes
                    pdf_filename := some (output_name ++ ".pdf")
                    midi_data := none
                    midi_filename := none
                    wav_data := none
                    pdf_generated := true },
           ConvOutcome.success, [ProcCall.lilypond content])
        | some midiBytes =>
          if env.exnMidiCache then
            ({ s with pdf_data := some pdfBytes
                      pdf_filename := some (output_name ++ ".pdf") },
             ConvOutcome.exceptionCaught, [ProcCall.lilypond content])
          else
            match (midi_to_wav env midiBytes).1 with
            | some (some wavBytes) =>
              if env.exnWavRead then
                ({ s with pdf_data := some pdfBytes
                          pdf_filename := some (output_name ++ ".pdf")
                          midi_data := some midiBytes
                          midi_filename := some (output_name ++ ".midi") },
                 ConvOutcome.exceptionCaught,
                 ProcCall.lilypond content :: (midi_to_wav env midiBytes).2)
              else
                ({ s with pdf_data := some pdfBytes
                          pdf_filename := some (output_name ++ ".pdf")
                          midi_data := some midiBytes
                          midi_filename := some (output_name ++ ".midi")
                          wav_data := some wavBytes
                          pdf_generated := true },
                 ConvOutcome.success,
                 ProcCall.lilypond content :: (midi_to_wav env midiBytes).2)
            | _ =>
              ({ s with pdf_data := some pdfBytes
                        pdf_filename := some (output_name ++ ".pdf")
                        midi_data := some midiBytes
                        midi_filename := some (output_name ++ ".midi")
                        wav_data := none
                        pdf_generated := true },
               ConvOutcome.success,
               ProcCall.lilypond content :: (midi_to_wav env midiBytes).2)

/-- One full rerun of the script: tab 1, tab 2, then the processing
block guarded by `(convert_text or convert_file) and lilypond_path`
(app.py line 365).  In text mode the content is the text area and the
name is tab 1's output field; in upload mode a missing file stops with
an error message, otherwise the decoded upload is converted under tab
2's output field. -/
def runScript (env : Env) (inp : ScriptInput) (s : SessionState) :
    SessionState × ConvOutcome × List ProcCall :=
  if (inp.convert_text || inp.convert_file) && (find_lilypond env.host).isSome then
    if inp.convert_text then
      runConversion env (tab1Step inp s).2 inp.output_filename (tab2Step inp (tab1Step inp s).1)
    else
      match inp.uploaded_file with
      | none => (tab2Step inp (tab1Step inp s).1, ConvOutcome.inputMissing, [])
      | some f =>
        runConversion env f.content inp.output_filename_file (tab2Step inp (tab1Step inp s).1)
  else (tab2Step inp (tab1Step inp s).1, ConvOutcome.notRun, [])

/-- The source-text-change trigger of app.py line 201, evaluated
against the pre-run state: the recorded `ly_text` exists and differs
from the text-area content of this run (the sample when Load Sample
was pressed). -/
def textChangeTrigger (inp : ScriptInput) (s : SessionState) : Bool :=
  textDiffers s.ly_text (if inp.load_sample then piano_sheet else inp.text_area)

/-- The uploaded-file identity-change trigger of app.py lines 218-220:
a file is uploaded, a previous name is recorded, and they differ. -/
def uploadChangeTrigger (inp : ScriptInput) (s : SessionState) : Bool :=
  match inp.uploaded_file, s.last_uploaded_file with
  | some f, some prev => prev != f.name
  | _, _ => false

/-! ## Concrete hosts, environments and inputs used as evaluation points -/

/-- A Linux host on which the `lilypond --version` probe succeeds and
no other tool is discoverable. -/
def plainHost : Host :=
  { os_name := "posix"
    platform_system := "Linux"
    probe_lilypond := some 0
    probe_fluidsynth := none
    program_files := none
    program_files_x86 := none
    home := "/root"
    isFile := fun _ => false
    isExecutable := fun _ => false }

/-- A macOS host: `os.name` is `posix` and `platform.system()` reports
`Darwin` (capitalised, as CPython does), the shell-path probes fail,
and LilyPond and FluidSynth are installed at their conventional macOS
locations. -/
def macHost : Host :=
  { os_name := "posix"
    platform_system := "Darwin"
    probe_lilypond := none
    probe_fluidsynth := none
    program_files := none
    program_files_x86 := none
    home := "/Users/u"
    isFile := fun p =>
      p == "/Applications/LilyPond.app/Contents/Resources/bin/lilypond" ||
      p == "/opt/homebrew/bin/fluidsynth"
    isExecutable := fun p =>
      p == "/Applications/LilyPond.app/Contents/Resources/bin/lilypond" ||
      p == "/opt/homebrew/bin/fluidsynth" }

/-- An environment whose engraving tool always succeeds, producing a
PDF and a MIDI, with no synthesizer discoverable and no I/O failures. -/
def envOk : Env :=
  { host := plainHost
    lily := fun _ => { returncode := 0, stderr := "", pdf := some [1, 2], midi := some [3] }
    synth := fun _ => none
    exnWriteLy := false
    exnPdfCache := false
    exnMidiCache := false
    exnWavRead := false }

/-- An environment whose engraving tool always fails with exit status 1
and diagnostic text on stderr. -/
def envBad : Env :=
  { envOk with lily := fun _ => { returncode := 1, stderr := "syntax error", pdf := none, midi := none } }

/-- An environment whose engraving tool succeeds producing a PDF but no
MIDI. -/
def envNoMidi : Env :=
  { envOk with lily := fun _ => { returncode := 0, stderr := "", pdf := some [1], midi := none } }

/-- An environment whose engraving tool exits 0 and produces a
zero-length `score.pdf` and no MIDI. -/
def envEmptyPdf : Env :=
  { envOk with lily := fun _ => { returncode := 0, stderr := "", pdf := some [], midi := none } }

/-- An environment in which the engraving succeeds with PDF and MIDI but
an I/O exception is raised while copying/reading the cached MIDI file. -/
def envMidiCacheExn : Env :=
  { envOk with
    lily := fun _ => { returncode := 0, stderr := "", pdf := some [7], midi := some [8] }
    exnMidiCache := true }

/-- A rerun in which no button is pressed and the text area holds `"b"`. -/
def inpIdle : ScriptInput :=
  { load_sample := false
    text_area := "b"
    output_filename := "o"
    uploaded_file := none
    output_filename_file := "o"
    convert_text := false
    convert_file := false }

/-- A rerun pressing Convert in text mode with an empty text area. -/
def inpEmptyText : ScriptInput :=
  { inpIdle with text_area := "", convert_text := true }

/-- A rerun pressing Convert in upload mode with no file chosen. -/
def inpUploadMissing : ScriptInput :=
  { inpIdle with convert_file := true }

/-- A rerun that only edits the output-filename field: same text as the
recorded `ly_text` of `sConverted`, no buttons, a fresh output name. -/
def inpRename : ScriptInput :=
  { inpIdle with text_area := "a", output_filename := "renamed" }

/-- A state after a successful conversion of the text `"a"`: validity
true and all artifacts present. -/
def sConverted : SessionState :=
  { pdf_generated := true
    pdf_data := some [1, 2]
    pdf_filename := some "o.pdf"
    midi_data := some [3]
    midi_filename := some "o.midi"
    wav_data := some [9]
    ly_text := some "a"
    last_uploaded_file := none }

/-! ## Helper lemmas -/

/-- A conversion that does not end in `success` never changes the
validity flag. -/
theorem runConversion_pdf_generated_of_ne_success (env : Env) (c n : String) (s : SessionState)
    (h : (runConversion env c n s).2.1 ≠ ConvOutcome.success) :
    ((runConversion env c n s).1).pdf_generated = s.pdf_generated := by
  unfold runConversion at *
  repeat' split at h <;> (try simp_all)

/-- A successful conversion sets the validity flag. -/
theorem runConversion_pdf_generated_of_success (env : Env) (c n : String) (s : SessionState)
    (h : (runConversion env c n s).2.1 = ConvOutcome.success) :
    ((runConversion env c n s).1).pdf_generated = true := by
  unfold runConversion at *
  repeat' split at h <;> (try simp_all)

/-- The outcome of a conversion does not depend on the prior session
state. -/
theorem runConversion_outcome_indep (env : Env) (c n : String) (s s' : SessionState) :
    (runConversion env c n s).2.1 = (runConversion env c n s').2.1 := by
  unfold runConversion
  repeat' split <;> (try simp_all)

/-- A successful conversion stores exactly the PDF bytes produced by the
engraving tool, under the name derived from the output base name. -/
theorem runConversion_pdf_data_of_success (env : Env) (c n : String) (s : SessionState)
    (h : (runConversion env c n s).2.1 = ConvOutcome.success) :
    ((runConversion env c n s).1).pdf_data = (env.lily c).pdf ∧
    ((runConversion env c n s).1).pdf_filename = some (n ++ ".pdf") := by
  unfold runConversion at *
  repeat' split at h <;> (try simp_all)

/-- Every run of the script either skips processing (`notRun`), stops on
a missing upload, or hands the post-tab state to `runConversion`. -/
theorem runScript_cases (env : Env) (inp : ScriptInput) (s : SessionState) :
    runScript env inp s = (tab2Step inp (tab1Step inp s).1, ConvOutcome.notRun, [])
  ∨ runScript env inp s = (tab2Step inp (tab1Step inp s).1, ConvOutcome.inputMissing, [])
  ∨ ∃ c n, runScript env inp s = runConversion env c n (tab2Step inp (tab1Step inp s).1) := by
  unfold runScript
  split
  · split
    · exact Or.inr (Or.inr ⟨_, _, rfl⟩)
    · split
      · exact Or.inr (Or.inl rfl)
      · exact Or.inr (Or.inr ⟨_, _, rfl⟩)
  · exact Or.inl rfl

/-- The validity flag after tab 1: the prior flag, cleared exactly when
Load Sample was pressed or the text changed. -/
theorem tab1Step_fst_pdf_generated (inp : ScriptInput) (s : SessionState) :
    ((tab1Step inp s).1).pdf_generated
      = (s.pdf_generated && !inp.load_sample && !(textChangeTrigger inp s)) := by
  unfold tab1Step textChangeTrigger
  by_cases hl : inp.load_sample <;> simp [hl]
  split <;> simp_all

/-- Tab 1 touches only `pdf_generated` and `ly_text`. -/
theorem tab1Step_fst_frame (inp : ScriptInput) (s : SessionState) :
    ((tab1Step inp s).1).pdf_data = s.pdf_data
  ∧ ((tab1Step inp s).1).pdf_filename = s.pdf_filename
  ∧ ((tab1Step inp s).1).midi_data = s.midi_data
  ∧ ((tab1Step inp s).1).midi_filename = s.midi_filename
  ∧ ((tab1Step inp s).1).wav_data = s.wav_data
  ∧ ((tab1Step inp s).1).last_uploaded_file = s.last_uploaded_file := by
  unfold tab1Step
  repeat' split <;> (try simp_all)

/-- The validity flag after tab 2: the prior flag, cleared exactly when
the uploaded-file identity changed. -/
theorem tab2Step_pdf_generated (inp : ScriptInput) (s : SessionState) :
    (tab2Step inp s).pdf_generated = (s.pdf_generated && !(uploadChangeTrigger inp s)) := by
  unfold tab2Step uploadChangeTrigger
  repeat' split <;> (try simp_all)

/-- Tab 2 touches only `pdf_generated` and `last_uploaded_file`. -/
theorem tab2Step_frame (inp : ScriptInput) (s : SessionState) :
    (tab2Step inp s).pdf_data = s.pdf_data
  ∧ (tab2Step inp s).pdf_filename = s.pdf_filename
  ∧ (tab2Step inp s).midi_data = s.midi_data
  ∧ (tab2Step inp s).midi_filename = s.midi_filename
  ∧ (tab2Step inp s).wav_data = s.wav_data
  ∧ (tab2Step inp s).ly_text = s.ly_text := by
  unfold tab2Step
  repeat' split <;> (try simp_all)

/-- The upload-change trigger reads only `last_uploaded_file`, which
tab 1 preserves. -/
theorem uploadChangeTrigger_tab1 (inp : ScriptInput) (s : SessionState) :
    uploadChangeTrigger inp ((tab1Step inp s).1) = uploadChangeTrigger inp s := by
  unfold uploadChangeTrigger
  rw [(tab1Step_fst_frame inp s).2.2.2.2.2]

/-- The validity flag after the two tab blocks: the prior flag, cleared
exactly when one of the three invalidation triggers fires. -/
theorem midState_pdf_generated (inp : ScriptInput) (s : SessionState) :
    (tab2Step inp (tab1Step inp s).1).pdf_generated
      = (s.pdf_generated && !inp.load_sample && !(textChangeTrigger inp s)
          && !(uploadChangeTrigger inp s)) := by
  rw [tab2Step_pdf_generated, tab1Step_fst_pdf_generated, uploadChangeTrigger_tab1]

/-- The artifact fields are untouched by the two tab blocks. -/
theorem midState_frame (inp : ScriptInput) (s : SessionState) :
    (tab2Step inp (tab1Step inp s).1).pdf_data = s.pdf_data
  ∧ (tab2Step inp (tab1Step inp s).1).pdf_filename = s.pdf_filename
  ∧ (tab2Step inp (tab1Step inp s).1).midi_data = s.midi_data
  ∧ (tab2Step inp (tab1Step inp s).1).midi_filename = s.midi_filename
  ∧ (tab2Step inp (tab1Step inp s).1).wav_data = s.wav_data := by
  have h1 := tab1Step_fst_frame inp s
  have h2 := tab2Step_frame inp ((tab1Step inp s).1)
  exact ⟨h2.1.trans h1.1, h2.2.1.trans h1.2.1, h2.2.2.1.trans h1.2.2.1,
         h2.2.2.2.1.trans h1.2.2.2.1, h2.2.2.2.2.1.trans h1.2.2.2.2.1⟩

/-- If the script run ends in `success`, the validity flag is set. -/
theorem runScript_pdf_generated_of_success (env : Env) (inp : ScriptInput) (s : SessionState)
    (h : (runScript env inp s).2.1 = ConvOutcome.success) :
    ((runScript env inp s).1).pdf_generated = true := by
  rcases runScript_cases env inp s with hc | hc | ⟨c, n, hc⟩ <;> rw [hc] at h ⊢
  · cases h
  · cases h
  · exact runConversion_pdf_generated_of_success _ _ _ _ h

/-- If the script run does not end in `success`, the validity flag is
whatever the two tab blocks left. -/
theorem runScript_pdf_generated_of_ne_success (env : Env) (inp : ScriptInput) (s : SessionState)
    (h : (runScript env inp s).2.1 ≠ ConvOutcome.success) :
    ((runScript env inp s).1).pdf_generated
      = (tab2Step inp (tab1Step inp s).1).pdf_generated := by
  rcases runScript_cases env inp s with hc | hc | ⟨c, n, hc⟩ <;> rw [hc] at h ⊢
  exact runConversion_pdf_generated_of_ne_success _ _ _ _ h

/-- When neither convert button is pressed the run only performs the two
tab blocks. -/
theorem runScript_of_no_convert (env : Env) (inp : ScriptInput) (s : SessionState)
    (h1 : inp.convert_text = false) (h2 : inp.convert_file = false) :
    runScript env inp s = (tab2Step inp (tab1Step inp s).1, ConvOutcome.notRun, []) := by
  unfold runScript
  simp [h1, h2]

/-! ## Claim theorems -/

/-- C1: the validity flag `pdf_generated` is false immediately after any
change to the source text or to the uploaded-file identity (and after
Load Sample), unless the same run completes a successful conversion; it
is true immediately after a successful conversion; and a run with no
such change and no successful conversion leaves it unchanged — in
particular re-submitting identical text after a successful conversion
leaves it true. -/
theorem validity_tracks_changes_and_success (env : Env) (inp : ScriptInput) (s : SessionState) :
    ((runScript env inp s).2.1 = ConvOutcome.success →
       ((runScript env inp s).1).pdf_generated = true)
  ∧ ((inp.load_sample = true ∨ textChangeTrigger inp s = true ∨ uploadChangeTrigger inp s = true) →
       (runScript env inp s).2.1 ≠ ConvOutcome.success →
       ((runScript env inp s).1).pdf_generated = false)
  ∧ (inp.load_sample = false → textChangeTrigger inp s = false →
       uploadChangeTrigger inp s = false →
       (runScript env inp s).2.1 ≠ ConvOutcome.success →
       ((runScript env inp s).1).pdf_generated = s.pdf_generated) := by
  refine ⟨runScript_pdf_generated_of_success env inp s, ?_, ?_⟩
  · intro ht hn
    rw [runScript_pdf_generated_of_ne_success env inp s hn, midState_pdf_generated]
    rcases ht with h | h | h <;> simp [h]
  · intro h1 h2 h3 hn
    rw [runScript_pdf_generated_of_ne_success env inp s hn, midState_pdf_generated, h1, h2, h3]
    simp

/-- C1 witness: a concrete text change (recorded text `"a"`, new text
`"b"`) with no conversion requested clears a previously-true validity
flag. -/
theorem validity_tracks_changes_and_success_witness :
    ((runScript envOk inpIdle { sConverted with ly_text := some "a" }).1).pdf_generated
      = false :=
  (validity_tracks_changes_and_success envOk inpIdle
      { sConverted with ly_text := some "a" }).2.1
    (Or.inr (Or.inl (by decide))) (by decide)

/-- C2 counterexample: a conversion that fails (via an I/O exception
while caching the MIDI file) after the PDF bytes were already stored
leaves the store partially overwritten: the outcome is a failure, yet
`pdf_data` differs from its prior value. -/
theorem failed_conversion_partial_overwrite_cex :
    (runConversion envMidiCacheExn "t" "o" initState).2.1 = ConvOutcome.exceptionCaught
  ∧ ((runConversion envMidiCacheExn "t" "o" initState).1).pdf_data = some [7]
  ∧ initState.pdf_data = none := by decide

/-- C2 (amended): a conversion that fails before the document bytes are
stored — I/O failure writing the scratch source, engraving error,
missing `score.pdf`, or I/O failure while caching the PDF — leaves the
ArtifactStore entirely unchanged; and no failed conversion of any kind
changes the validity flag.  (A failure after the PDF was stored may
leave `pdf_data`/`pdf_filename` and the MIDI fields overwritten.) -/
theorem store_unchanged_before_document_write (env : Env) (c n : String) (s : SessionState) :
    ((runConversion env c n s).2.1 ≠ ConvOutcome.success →
       ((runConversion env c n s).1).pdf_generated = s.pdf_generated)
  ∧ (env.exnWriteLy = true → (runConversion env c n s).1 = s)
  ∧ ((env.lily c).returncode ≠ 0 → (runConversion env c n s).1 = s)
  ∧ ((env.lily c).pdf = none → (runConversion env c n s).1 = s)
  ∧ (env.exnPdfCache = true → (runConversion env c n s).1 = s) := by
  refine ⟨runConversion_pdf_generated_of_ne_success env c n s, ?_, ?_, ?_, ?_⟩ <;>
    (intro h; unfold runConversion; repeat' split <;> (try simp_all))

/-- C2 witness: a failing engraving run (non-zero exit) leaves the
store exactly as it was. -/
theorem store_unchanged_before_document_write_witness :
    (runConversion envBad "x" "o" initState).1 = initState :=
  (store_unchanged_before_document_write envBad "x" "o" initState).2.2.1 (by decide)

/-- C3 (code bug): on a real macOS host `platform.system()` reports
`"Darwin"`, but the code compares it to the lowercase `"darwin"`
(app.py lines 51, 264), so the dedicated macOS candidate lists are
unreachable: with the tools installed at their conventional macOS
locations and absent from the shell path, `find_lilypond` and
`find_fluidsynth` return `none`.  Had the comparison matched (host
reporting `"darwin"`), the macOS lists would find both tools. -/
theorem darwin_candidate_lists_unreachable :
    find_lilypond macHost = none
  ∧ find_fluidsynth macHost = none
  ∧ find_lilypond { macHost with platform_system := "darwin" }
      = some "/Applications/LilyPond.app/Contents/Resources/bin/lilypond"
  ∧ find_fluidsynth { macHost with platform_system := "darwin" }
      = some "/opt/homebrew/bin/fluidsynth" := by decide


/-- C4: provided the scratch source file is written (so the tool runs
at all), the conversion stops with the engraving error carrying the
tool's stderr text exactly when the tool exits non-zero, and stops with
the missing-document error exactly when the tool exits zero but no
`score.pdf` exists; in both failure cases the store — in particular the
validity flag — is left unchanged (not forced true). -/
theorem engraving_failure_characterization (env : Env) (c n : String) (s : SessionState)
    (hw : env.exnWriteLy = false) :
    ((runConversion env c n s).2.1 = ConvOutcome.lilypondError ((env.lily c).stderr) ↔
       (env.lily c).returncode ≠ 0)
  ∧ ((runConversion env c n s).2.1 = ConvOutcome.noPdfProduced ↔
       (env.lily c).returncode = 0 ∧ (env.lily c).pdf = none)
  ∧ ((env.lily c).returncode ≠ 0 → (runConversion env c n s).1 = s)
  ∧ ((env.lily c).pdf = none → (runConversion env c n s).1 = s) := by
  unfold runConversion
  simp only [hw, Bool.false_eq_true, if_false]
  repeat' split <;> (try simp_all)

/-- C4 witness: a source the tool rejects with exit status 1 and
diagnostic `"syntax error"` yields exactly that engraving failure. -/
theorem engraving_failure_characterization_witness :
    (runConversion envBad "x" "o" initState).2.1 = ConvOutcome.lilypondError "syntax error" :=
  ((engraving_failure_characterization envBad "x" "o" initState rfl).1).mpr (by decide)

/-- C5: whenever the audio step cannot proceed — no synthesizer
discoverable, no SoundFont discoverable, the synthesizer invocation
raising, or the synthesizer exiting non-zero — `midi_to_wav` returns
`None` without raising, and the conversion still succeeds with the
document and performance-data artifacts stored and validity set. -/
theorem audio_absence_never_blocks_success (env : Env) (c n : String) (s : SessionState)
    (pdfB midiB : Bytes)
    (hw : env.exnWriteLy = false) (hpc : env.exnPdfCache = false)
    (hmc : env.exnMidiCache = false)
    (hrc : (env.lily c).returncode = 0)
    (hpdf : (env.lily c).pdf = some pdfB) (hmidi : (env.lily c).midi = some midiB)
    (hfail : find_fluidsynth env.host = none ∨ find_soundfont env.host = none ∨
             env.synth midiB = none ∨
             ∃ r, env.synth midiB = some r ∧ r.returncode ≠ 0) :
    (midi_to_wav env midiB).1 = none
  ∧ (runConversion env c n s).2.1 = ConvOutcome.success
  ∧ ((runConversion env c n s).1).pdf_generated = true
  ∧ ((runConversion env c n s).1).pdf_data = some pdfB
  ∧ ((runConversion env c n s).1).midi_data = some midiB
  ∧ ((runConversion env c n s).1).wav_data = none := by
  have hm2w : (midi_to_wav env midiB).1 = none := by
    unfold midi_to_wav
    rcases hfail with h | h | h | ⟨r, hr, hrc'⟩ <;> repeat' split <;> simp_all
  refine ⟨hm2w, ?_⟩
  unfold runConversion
  simp [hw, hpc, hmc, hrc, hpdf, hmidi, hm2w]

/-- C5 witness: with no synthesizer discoverable, a conversion that
produces PDF and MIDI still succeeds, stores both, and has no audio. -/
theorem audio_absence_never_blocks_success_witness :
    (runConversion envOk "c" "o" initState).2.1 = ConvOutcome.success
  ∧ ((runConversion envOk "c" "o" initState).1).wav_data = none := by
  have h := audio_absence_never_blocks_success envOk "c" "o" initState [1, 2] [3]
    rfl rfl rfl rfl rfl rfl (Or.inl (by decide))
  exact ⟨h.2.1, h.2.2.2.2.2⟩

/-- C6 counterexample: pressing Convert in text mode with an empty text
area does not stop early — the engraving tool is invoked on the empty
content. -/
theorem empty_text_invokes_engraver_cex :
    (runScript envBad inpEmptyText initState).2.2 = [ProcCall.lilypond ""]
  ∧ (runScript envBad inpEmptyText initState).2.1 ≠ ConvOutcome.inputMissing := by decide

/-- C6 (amended): in upload mode with no file chosen, processing stops
with a user-visible message before any external pipeline process is
invoked; a text-mode action with empty content is not checked and the
engraving tool is invoked on the empty source. -/
theorem upload_missing_stops_early (env : Env) (inp : ScriptInput) (s : SessionState)
    (h1 : inp.convert_text = false) (h2 : inp.convert_file = true)
    (h3 : inp.uploaded_file = none)
    (h4 : (find_lilypond env.host).isSome = true) :
    (runScript env inp s).2.1 = ConvOutcome.inputMissing
  ∧ (runScript env inp s).2.2 = ([] : List ProcCall) := by
  unfold runScript
  simp [h1, h2, h3, h4]

/-- C6 witness: Convert pressed in upload mode with no file chosen,
LilyPond available: the run stops with the missing-input message and no
pipeline process is invoked. -/
theorem upload_missing_stops_early_witness :
    (runScript envOk inpUploadMissing initState).2.1 = ConvOutcome.inputMissing
  ∧ (runScript envOk inpUploadMissing initState).2.2 = ([] : List ProcCall) :=
  upload_missing_stops_early envOk inpUploadMissing initState rfl rfl rfl (by decide)

/-- C7 counterexample: the engraving tool can exit 0 and produce a
zero-length `score.pdf`; the conversion is then accepted and stores
document bytes of length zero, contradicting the claimed length > 0. -/
theorem zero_length_document_cex :
    (runConversion envEmptyPdf "t" "test1" initState).2.1 = ConvOutcome.success
  ∧ ((runConversion envEmptyPdf "t" "test1" initState).1).pdf_data = some ([] : Bytes)
  ∧ ((runConversion envEmptyPdf "t" "test1" initState).1).pdf_filename = some "test1.pdf" := by
  decide

/-- C7 (amended): for every source text the engraving tool accepts
(zero exit, `score.pdf` produced) and every output base name, the
conversion stores exactly the produced document bytes — hence of
positive length exactly when the produced file is non-empty — under the
name `{outputBaseName}.pdf`, and when a performance-data file is
produced its stored name is `{outputBaseName}.midi`. -/
theorem stored_names_follow_output_base (env : Env) (c n : String) (s : SessionState)
    (pdfB : Bytes)
    (hw : env.exnWriteLy = false) (hpc : env.exnPdfCache = false)
    (hmc : env.exnMidiCache = false) (hwr : env.exnWavRead = false)
    (hrc : (env.lily c).returncode = 0) (hpdf : (env.lily c).pdf = some pdfB) :
    (runConversion env c n s).2.1 = ConvOutcome.success
  ∧ ((runConversion env c n s).1).pdf_data = some pdfB
  ∧ ((runConversion env c n s).1).pdf_filename = some (n ++ ".pdf")
  ∧ ((env.lily c).midi.isSome = true →
       ((runConversion env c n s).1).midi_filename = some (n ++ ".midi")
     ∧ ((runConversion env c n s).1).midi_data = (env.lily c).midi) := by
  unfold runConversion
  simp only [hw, hpc, hmc, hwr, hrc, hpdf, Bool.false_eq_true, if_false]
  repeat' split <;> (try simp_all)

/-- C7 witness: a tool producing PDF bytes `[1, 2]` and a MIDI under
output base name `"tune"` stores them as `tune.pdf` / `tune.midi`. -/
theorem stored_names_follow_output_base_witness :
    (runConversion envOk "c" "tune" initState).2.1 = ConvOutcome.success
  ∧ ((runConversion envOk "c" "tune" initState).1).pdf_data = some [1, 2]
  ∧ ((runConversion envOk "c" "tune" initState).1).pdf_filename = some "tune.pdf"
  ∧ ((runConversion envOk "c" "tune" initState).1).midi_filename = some "tune.midi" := by
  have h := stored_names_follow_output_base envOk "c" "tune" initState [1, 2]
    rfl rfl rfl rfl rfl rfl
  exact ⟨h.1, h.2.1, h.2.2.1, (h.2.2.2 (by decide)).1⟩


/-- C8: converting the same source text and output base name twice in
succession, with the tool and environment unchanged (the tool a fixed
function of the source-file contents), succeeds again and stores
byte-identical document bytes both times. -/
theorem convert_idempotent_on_stored_bytes (env : Env) (c n : String) (s : SessionState)
    (h : (runConversion env c n s).2.1 = ConvOutcome.success) :
    (runConversion env c n ((runConversion env c n s).1)).2.1 = ConvOutcome.success
  ∧ ((runConversion env c n ((runConversion env c n s).1)).1).pdf_data
      = ((runConversion env c n s).1).pdf_data := by
  have h2 : (runConversion env c n ((runConversion env c n s).1)).2.1
      = ConvOutcome.success := by
    rw [runConversion_outcome_indep env c n _ s]
    exact h
  refine ⟨h2, ?_⟩
  rw [(runConversion_pdf_data_of_success env c n _ h2).1,
      (runConversion_pdf_data_of_success env c n s h).1]

/-- C8 witness: two successive conversions of the text `"c"` under the
name `"o"` in a fixed successful environment store the same bytes. -/
theorem convert_idempotent_on_stored_bytes_witness :
    ((runConversion envOk "c" "o" ((runConversion envOk "c" "o" initState).1)).1).pdf_data
      = ((runConversion envOk "c" "o" initState).1).pdf_data :=
  (convert_idempotent_on_stored_bytes envOk "c" "o" initState (by decide)).2

/-- C9: a run with no source-text change, no uploaded-file identity
change, no Load Sample and no convert action — in particular one that
only edits the output-filename field — leaves the validity flag and
every stored artifact byte string and name unchanged; the flag is
raised only by a successful conversion and cleared only by one of the
three invalidation triggers. -/
theorem output_name_change_is_frame (env : Env) (inp : ScriptInput) (s : SessionState) :
    (inp.convert_text = false → inp.convert_file = false →
     inp.load_sample = false → textChangeTrigger inp s = false →
     uploadChangeTrigger inp s = false →
       ((runScript env inp s).1).pdf_generated = s.pdf_generated
     ∧ ((runScript env inp s).1).pdf_data = s.pdf_data
     ∧ ((runScript env inp s).1).pdf_filename = s.pdf_filename
     ∧ ((runScript env inp s).1).midi_data = s.midi_data
     ∧ ((runScript env inp s).1).midi_filename = s.midi_filename
     ∧ ((runScript env inp s).1).wav_data = s.wav_data)
  ∧ (((runScript env inp s).1).pdf_generated = true → s.pdf_generated = false →
       (runScript env inp s).2.1 = ConvOutcome.success)
  ∧ (((runScript env inp s).1).pdf_generated = false → s.pdf_generated = true →
       (inp.load_sample = true ∨ textChangeTrigger inp s = true ∨
        uploadChangeTrigger inp s = true)) := by
  refine ⟨?_, ?_, ?_⟩
  · intro h1 h2 h3 h4 h5
    rw [runScript_of_no_convert env inp s h1 h2]
    have hm := midState_frame inp s
    refine ⟨?_, hm.1, hm.2.1, hm.2.2.1, hm.2.2.2.1, hm.2.2.2.2⟩
    rw [midState_pdf_generated, h3, h4, h5]
    simp
  · intro hpg hs
    by_contra hns
    rw [runScript_pdf_generated_of_ne_success env inp s hns, midState_pdf_generated, hs] at hpg
    simp at hpg
  · intro hpg hs
    by_contra hc
    push_neg at hc
    obtain ⟨h1, h2, h3⟩ := hc
    simp only [Bool.not_eq_true] at h1 h2 h3
    by_cases hsu : (runScript env inp s).2.1 = ConvOutcome.success
    · rw [runScript_pdf_generated_of_success env inp s hsu] at hpg
      cases hpg
    · rw [runScript_pdf_generated_of_ne_success env inp s hsu, midState_pdf_generated,
          hs, h1, h2, h3] at hpg
      simp at hpg

/-- C9 witness: a run that only changes the output-filename field (same
text, no buttons) leaves a previously valid store fully intact. -/
theorem output_name_change_is_frame_witness :
    ((runScript envOk inpRename sConverted).1).pdf_generated = sConverted.pdf_generated
  ∧ ((runScript envOk inpRename sConverted).1).pdf_data = sConverted.pdf_data
  ∧ ((runScript envOk inpRename sConverted).1).wav_data = sConverted.wav_data := by
  have h := (output_name_change_is_frame envOk inpRename sConverted).1
    rfl rfl rfl (by decide) (by decide)
  exact ⟨h.1, h.2.1, h.2.2.2.2.2⟩

/-- C10: a successful conversion whose scratch directory contains no
`score.midi` resets `midi_data`, `midi_filename` and `wav_data` to
`None`, so stale performance-data or audio artifacts never survive it. -/
theorem no_midi_resets_audio_artifacts (env : Env) (c n : String) (s : SessionState)
    (hm : (env.lily c).midi = none)
    (hs : (runConversion env c n s).2.1 = ConvOutcome.success) :
    ((runConversion env c n s).1).midi_data = none
  ∧ ((runConversion env c n s).1).midi_filename = none
  ∧ ((runConversion env c n s).1).wav_data = none := by
  unfold runConversion at *
  repeat' split at hs <;> (try simp_all)

/-- C10 witness: starting from a store holding MIDI and WAV artifacts,
a successful conversion producing only a PDF clears all three fields. -/
theorem no_midi_resets_audio_artifacts_witness :
    ((runConversion envNoMidi "c" "o" sConverted).1).midi_data = none
  ∧ ((runConversion envNoMidi "c" "o" sConverted).1).midi_filename = none
  ∧ ((runConversion envNoMidi "c" "o" sConverted).1).wav_data = none :=
  no_midi_resets_audio_artifacts envNoMidi "c" "o" sConverted rfl (by decide)

end LilyApp
